import Mathlib

/-!
Shallow embedding of the Emissions Allocation Engine of `src/NGMetallAPI.py`.

Python floats are modelled as exact rationals (ℚ); all the arithmetic in the
engine is products, sums and one guarded division, so the rational semantics
is the ideal-arithmetic reading of the code.  Python dicts are modelled as
ordered association lists with insertion-order iteration and
overwrite-on-duplicate-key semantics (CPython 3.7+), because
`allocate_emissions` iterates `output_volumes.items()` in insertion order.
The indexed state built by `index_data` is modelled as the `NGMetallAPI`
structure of lookup functions; `buildListIndex` / `buildScalarIndex` mirror
how `index_data` fills the dicts from the raw record lists.
-/

/-- Mirrors the dataclass `MaterialTransformation` in `NGMetallAPI.py`. -/
structure MaterialTransformation where
  facility_id : String
  input_material_code : String
  output_material_code : String
  percentage : ℚ
  category : String
  deriving DecidableEq, Repr

/-- Mirrors the dataclass `EmissionFactorProcessing`. -/
structure EmissionFactorProcessing where
  facility_id : String
  material_code : String
  emission_factor : ℚ
  deriving DecidableEq, Repr

/-- Mirrors the dataclass `EstimatedOutputDistributionGeo`. -/
structure EstimatedOutputDistributionGeo where
  output_material_code : String
  destination_country : String
  percentage : ℚ
  deriving DecidableEq, Repr

/-- Mirrors the dataclass `TransportEmissionFactor`. -/
structure TransportEmissionFactor where
  mode_of_transport : String
  emission_factor : ℚ
  deriving DecidableEq, Repr

/-- Mirrors the dataclass `AverageDownstreamDistances`. -/
structure AverageDownstreamDistances where
  facility_id : String
  destination_country : String
  average_distance : ℚ
  mode_of_transport : String
  deriving DecidableEq, Repr

/-- Mirrors the dataclass `AverageUpstreamDistances`. -/
structure AverageUpstreamDistances where
  customer_id : String
  facility_id : String
  inbound_average_distance : ℚ
  inbound_mode_of_transport : String
  deriving DecidableEq, Repr

/-- Mirrors the dataclass `VirginMaterialProductionBenchmark`. -/
structure VirginMaterialProductionBenchmark where
  material_code : String
  emissions : ℚ
  deriving DecidableEq, Repr

/-- Mirrors the dataclass `Invoice`. -/
structure Invoice where
  invoice_id : String
  customer_id : String
  delivery_date : String
  facility_id : String
  material_code : String
  volume : ℚ
  deriving DecidableEq, Repr

/-- Mirrors the dataclass `RecyclingReport` (the report row). -/
structure RecyclingReport where
  invoice_id : String
  customer_id : String
  delivery_date : String
  facility_id : String
  input_material_code : String
  output_material_code : String
  category : String
  volume_delivered : ℚ
  output_volume : ℚ
  processing_emissions : ℚ
  inbound_transport_emissions : ℚ
  outbound_transport_emissions : ℚ
  total_transport_emissions : ℚ
  production_benchmark_emissions : ℚ
  destination_country : String
  destination_volume : ℚ
  deriving DecidableEq, Repr

/-- The indexed state of an `NGMetallAPI` instance after `index_data` has run:
each field is one of the lookup dicts, read through `dict.get` with the
default the code uses at each call site. -/
structure NGMetallAPI where
  material_transformation_index : String × String → List MaterialTransformation
  emission_factor_index : String × String → Option ℚ
  transport_emission_factor_index : String → Option ℚ
  upstream_distance_index : String × String → Option AverageUpstreamDistances
  downstream_distance_index : String × String → Option AverageDownstreamDistances
  output_distribution_index : String → List EstimatedOutputDistributionGeo
  virgin_benchmark_index : String → Option ℚ

/-- `index_data`'s `setdefault(key, []).append(x)` pattern: the dict maps a
key to the sub-list of records with that key, in input order. -/
def buildListIndex {α : Type} {κ : Type} [DecidableEq κ]
    (key : α → κ) (records : List α) : κ → List α :=
  fun k => records.filter (fun r => key r = k)

/-- `index_data`'s plain `dict[key] = value` pattern: later records with the
same key overwrite earlier ones. -/
def buildScalarIndex {α β : Type} {κ : Type} [DecidableEq κ]
    (key : α → κ) (value : α → β) (records : List α) : κ → Option β :=
  records.foldl (fun acc r => fun k => if k = key r then some (value r) else acc k)
    (fun _ => none)

/-- `index_data`: builds the indexed state from the raw record lists. -/
def index_data (material_transformations : List MaterialTransformation)
    (emission_factors : List EmissionFactorProcessing)
    (transport_emission_factors : List TransportEmissionFactor)
    (upstream_distances : List AverageUpstreamDistances)
    (downstream_distances : List AverageDownstreamDistances)
    (output_distribution : List EstimatedOutputDistributionGeo)
    (virgin_benchmarks : List VirginMaterialProductionBenchmark) : NGMetallAPI where
  material_transformation_index :=
    buildListIndex (fun mt => (mt.facility_id, mt.input_material_code)) material_transformations
  emission_factor_index :=
    buildScalarIndex (fun ef => (ef.facility_id, ef.material_code))
      (fun ef => ef.emission_factor) emission_factors
  transport_emission_factor_index :=
    buildScalarIndex (fun tef => tef.mode_of_transport)
      (fun tef => tef.emission_factor) transport_emission_factors
  upstream_distance_index :=
    buildScalarIndex (fun ud => (ud.customer_id, ud.facility_id)) id upstream_distances
  downstream_distance_index :=
    buildScalarIndex (fun dd => (dd.facility_id, dd.destination_country)) id downstream_distances
  output_distribution_index :=
    buildListIndex (fun od => od.output_material_code) output_distribution
  virgin_benchmark_index :=
    buildScalarIndex (fun vb => vb.material_code) (fun vb => vb.emissions) virgin_benchmarks

/-- Python dict assignment `d[k] = v` on an insertion-ordered dict represented
as an association list: an existing key keeps its position and gets the new
value, a fresh key is appended. -/
def dictInsert (l : List (String × ℚ)) (k : String) (v : ℚ) : List (String × ℚ) :=
  if l.any (fun p => p.1 = k) then
    l.map (fun p => if p.1 = k then (k, v) else p)
  else
    l ++ [(k, v)]

/-- Python dict lookup `d[k]` on the association list; the engine only reads
keys it has inserted, so the `0` default is never hit in its call sites. -/
def dictGet (l : List (String × ℚ)) (k : String) : ℚ :=
  match l.find? (fun p => p.1 = k) with
  | some p => p.2
  | none => 0

/-- `sum(d.values())`. -/
def dictValuesSum (l : List (String × ℚ)) : ℚ :=
  (l.map Prod.snd).sum

namespace NGMetallAPI

/-- `get_material_transformations`: `dict.get(key, [])`. -/
def get_material_transformations (api : NGMetallAPI)
    (facility_id input_material_code : String) : List MaterialTransformation :=
  api.material_transformation_index (facility_id, input_material_code)

/-- `calculate_output_volumes`: one dict write per transformation rule;
duplicate output codes overwrite (known edge case, spec §9). -/
def calculate_output_volumes (volume_delivered : ℚ)
    (transformations : List MaterialTransformation) : List (String × ℚ) :=
  transformations.foldl
    (fun output_volumes mt =>
      dictInsert output_volumes mt.output_material_code (volume_delivered * mt.percentage))
    []

/-- `calculate_processing_emissions`: factor defaults to 0 when absent. -/
def calculate_processing_emissions (api : NGMetallAPI)
    (facility_id material_code : String) (volume_delivered : ℚ) : ℚ :=
  volume_delivered * ((api.emission_factor_index (facility_id, material_code)).getD 0)

/-- `allocate_emissions`: proportional allocation, all-zero when the total
output volume is falsy (`if total_volume else 0`). -/
def allocate_emissions (total_emissions : ℚ) (output_volumes : List (String × ℚ)) :
    List (String × ℚ) :=
  let total_volume := dictValuesSum output_volumes
  output_volumes.map
    (fun p => (p.1, if total_volume ≠ 0 then (p.2 / total_volume) * total_emissions else 0))

/-- `calculate_inbound_transport_emissions`: 0 when no upstream distance is
configured, else volume × distance × mode factor (factor defaults to 0). -/
def calculate_inbound_transport_emissions (api : NGMetallAPI)
    (customer_id facility_id : String) (volume_delivered : ℚ) : ℚ :=
  match api.upstream_distance_index (customer_id, facility_id) with
  | none => 0
  | some upstream_distance =>
      volume_delivered * upstream_distance.inbound_average_distance *
        ((api.transport_emission_factor_index upstream_distance.inbound_mode_of_transport).getD 0)

/-- `get_output_distribution`: `dict.get(code, [])`. -/
def get_output_distribution (api : NGMetallAPI) (output_material_code : String) :
    List EstimatedOutputDistributionGeo :=
  api.output_distribution_index output_material_code

/-- `get_downstream_distance`: `dict.get(key)` (None when absent). -/
def get_downstream_distance (api : NGMetallAPI) (facility_id destination_country : String) :
    Option AverageDownstreamDistances :=
  api.downstream_distance_index (facility_id, destination_country)

/-- The body of the `for mt in transformations` loop in
`calculate_recycling_report`, given the branch's output volume and its two
allocated emission shares.  A `Material Recycling` branch fans out over the
geographic distribution, skipping destinations without a downstream distance
(`continue`); any other category emits exactly one `N/A` row whose
`total_transport_emissions` is the value set at the top of the loop body
(the allocated inbound emission). -/
def rowsForBranch (api : NGMetallAPI) (invoice : Invoice)
    (output_volume processing_emission inbound_emission : ℚ)
    (mt : MaterialTransformation) : List RecyclingReport :=
  if mt.category = "Material Recycling" then
    (api.get_output_distribution mt.output_material_code).filterMap
      (fun od =>
        let destination_volume := output_volume * od.percentage
        match api.get_downstream_distance invoice.facility_id od.destination_country with
        | none => none
        | some downstream_distance =>
            let outbound_emission := destination_volume * downstream_distance.average_distance *
              ((api.transport_emission_factor_index downstream_distance.mode_of_transport).getD 0)
            let total_transport_emission := inbound_emission + outbound_emission
            let benchmark_emission :=
              ((api.virgin_benchmark_index mt.output_material_code).getD 0) * destination_volume
            some
              { invoice_id := invoice.invoice_id
                customer_id := invoice.customer_id
                delivery_date := invoice.delivery_date
                facility_id := invoice.facility_id
                input_material_code := invoice.material_code
                output_material_code := mt.output_material_code
                category := mt.category
                volume_delivered := invoice.volume
                output_volume := output_volume
                processing_emissions := processing_emission
                inbound_transport_emissions := inbound_emission
                outbound_transport_emissions := outbound_emission
                total_transport_emissions := total_transport_emission
                production_benchmark_emissions := benchmark_emission
                destination_country := od.destination_country
                destination_volume := destination_volume })
  else
    [{ invoice_id := invoice.invoice_id
       customer_id := invoice.customer_id
       delivery_date := invoice.delivery_date
       facility_id := invoice.facility_id
       input_material_code := invoice.material_code
       output_material_code := mt.output_material_code
       category := mt.category
       volume_delivered := invoice.volume
       output_volume := output_volume
       processing_emissions := processing_emission
       inbound_transport_emissions := inbound_emission
       outbound_transport_emissions := 0
       total_transport_emissions := inbound_emission
       production_benchmark_emissions := 0
       destination_country := "N/A"
       destination_volume := output_volume }]

/-- The dict `output_volumes` of `calculate_recycling_report`, line 183. -/
def invoiceOutputVolumes (api : NGMetallAPI) (invoice : Invoice) : List (String × ℚ) :=
  calculate_output_volumes invoice.volume
    (api.get_material_transformations invoice.facility_id invoice.material_code)

/-- `output_volumes[mt.output_material_code]`, line 195. -/
def branchOutputVolume (api : NGMetallAPI) (invoice : Invoice)
    (mt : MaterialTransformation) : ℚ :=
  dictGet (api.invoiceOutputVolumes invoice) mt.output_material_code

/-- `processing_emissions_allocated[mt.output_material_code]`, lines 187-188
and 196. -/
def branchAllocatedProcessing (api : NGMetallAPI) (invoice : Invoice)
    (mt : MaterialTransformation) : ℚ :=
  dictGet
    (allocate_emissions
      (api.calculate_processing_emissions invoice.facility_id invoice.material_code invoice.volume)
      (api.invoiceOutputVolumes invoice))
    mt.output_material_code

/-- `inbound_emissions_allocated[mt.output_material_code]`, lines 191-192
and 197. -/
def branchAllocatedInbound (api : NGMetallAPI) (invoice : Invoice)
    (mt : MaterialTransformation) : ℚ :=
  dictGet
    (allocate_emissions
      (api.calculate_inbound_transport_emissions invoice.customer_id invoice.facility_id
        invoice.volume)
      (api.invoiceOutputVolumes invoice))
    mt.output_material_code

/-- One iteration of the `for mt in transformations` loop with the shared
intermediates filled in.  The Python code computes `output_volumes` and the
two allocation dicts once per invoice; they are pure values, so factoring
them into the three per-branch helpers above yields the identical rows. -/
def branchRows (api : NGMetallAPI) (invoice : Invoice)
    (mt : MaterialTransformation) : List RecyclingReport :=
  rowsForBranch api invoice
    (api.branchOutputVolume invoice mt)
    (api.branchAllocatedProcessing invoice mt)
    (api.branchAllocatedInbound invoice mt)
    mt

/-- The per-invoice body of `calculate_recycling_report`: resolve the rules
(`continue` when there are none), then emit each branch's rows in rule
order. -/
def processInvoice (api : NGMetallAPI) (invoice : Invoice) : List RecyclingReport :=
  let transformations := api.get_material_transformations invoice.facility_id invoice.material_code
  if transformations = [] then []
  else (transformations.map (fun mt => api.branchRows invoice mt)).flatten

/-- `calculate_recycling_report`: concatenation of each invoice's rows in
input order. -/
def calculate_recycling_report (api : NGMetallAPI) (invoices : List Invoice) :
    List RecyclingReport :=
  (invoices.map (processInvoice api)).flatten

end NGMetallAPI

/-! ## The spec's example scenario (§8) -/

/-- The spec's one transformation rule: F001, M001 → M002, yield 0.95,
category Material Recycling. -/
def exampleRule : MaterialTransformation :=
  { facility_id := "F001", input_material_code := "M001",
    output_material_code := "M002", percentage := 0.95,
    category := "Material Recycling" }

/-- The spec's example reference data, indexed exactly as `index_data` does. -/
def exampleApi : NGMetallAPI :=
  index_data
    [exampleRule]
    [{ facility_id := "F001", material_code := "M001", emission_factor := 19.5 }]
    [{ mode_of_transport := "Truck", emission_factor := 0.05 }]
    [{ customer_id := "Supplier001", facility_id := "F001",
       inbound_average_distance := 500, inbound_mode_of_transport := "Truck" }]
    [{ facility_id := "F001", destination_country := "Norway",
       average_distance := 500, mode_of_transport := "Truck" }]
    [{ output_material_code := "M002", destination_country := "Norway", percentage := 1 }]
    [{ material_code := "M002", emissions := 3056 }]

/-- The spec's single invoice: INV001, Supplier001, F001, M001, volume 6000. -/
def exampleInvoice : Invoice :=
  { invoice_id := "INV001", customer_id := "Supplier001",
    delivery_date := "2023-10-01", facility_id := "F001",
    material_code := "M001", volume := 6000 }

/-- The report row the spec expects for the example scenario. -/
def exampleExpectedRow : RecyclingReport :=
  { invoice_id := "INV001", customer_id := "Supplier001",
    delivery_date := "2023-10-01", facility_id := "F001",
    input_material_code := "M001", output_material_code := "M002",
    category := "Material Recycling", volume_delivered := 6000,
    output_volume := 5700, processing_emissions := 117000,
    inbound_transport_emissions := 150000, outbound_transport_emissions := 142500,
    total_transport_emissions := 292500, production_benchmark_emissions := 17419200,
    destination_country := "Norway", destination_volume := 5700 }

/-! ## Further concrete inputs for counterexamples and witnesses -/

/-- An invoice with a negative volume, for the validation claim: the example
scenario's configuration with `volume = -100`. -/
def negInvoice : Invoice :=
  { invoice_id := "INV002", customer_id := "Supplier001",
    delivery_date := "2023-10-01", facility_id := "F001",
    material_code := "M001", volume := -100 }

/-- The row the code emits for `negInvoice` without any validation. -/
def negExpectedRow : RecyclingReport :=
  { invoice_id := "INV002", customer_id := "Supplier001",
    delivery_date := "2023-10-01", facility_id := "F001",
    input_material_code := "M001", output_material_code := "M002",
    category := "Material Recycling", volume_delivered := -100,
    output_volume := -95, processing_emissions := -1950,
    inbound_transport_emissions := -2500, outbound_transport_emissions := -2375,
    total_transport_emissions := -4875, production_benchmark_emissions := -290320,
    destination_country := "Norway", destination_volume := -95 }

/-- A single rule with yield fraction 0: the one invoice has a rule, yet the
total output volume is 0, so every allocated share is 0. -/
def zeroYieldRule : MaterialTransformation :=
  { facility_id := "F001", input_material_code := "M001",
    output_material_code := "M002", percentage := 0, category := "Losses" }

/-- Reference data with only `zeroYieldRule` and a processing factor. -/
def zeroYieldApi : NGMetallAPI :=
  index_data [zeroYieldRule]
    [{ facility_id := "F001", material_code := "M001", emission_factor := 19.5 }]
    [] [] [] [] []

/-- Invoice hitting `zeroYieldRule` with volume 6000. -/
def zeroYieldInvoice : Invoice :=
  { invoice_id := "INV003", customer_id := "Supplier001",
    delivery_date := "2023-10-01", facility_id := "F001",
    material_code := "M001", volume := 6000 }

/-- Two rules for the same (facility, input) mapping to the SAME output code
with yields 0.3 and 0.7: the yields sum to 1 but the output-volume dict
overwrites the first entry with the second. -/
def dupOutputRules : List MaterialTransformation :=
  [{ facility_id := "F001", input_material_code := "M001",
     output_material_code := "M002", percentage := 0.3, category := "Losses" },
   { facility_id := "F001", input_material_code := "M001",
     output_material_code := "M002", percentage := 0.7, category := "Losses" }]

/-- Reference data holding only `dupOutputRules`. -/
def dupOutputApi : NGMetallAPI :=
  index_data dupOutputRules [] [] [] [] [] []

/-- Invoice hitting `dupOutputRules` with volume 6000. -/
def dupOutputInvoice : Invoice :=
  { invoice_id := "INV004", customer_id := "Supplier001",
    delivery_date := "2023-10-01", facility_id := "F001",
    material_code := "M001", volume := 6000 }

/-- Two rules with distinct output codes whose yields sum to 1. -/
def distinctOutputRules : List MaterialTransformation :=
  [{ facility_id := "F001", input_material_code := "M001",
     output_material_code := "M002", percentage := 0.3, category := "Losses" },
   { facility_id := "F001", input_material_code := "M001",
     output_material_code := "M003", percentage := 0.7, category := "Losses" }]

/-- Reference data holding only `distinctOutputRules`. -/
def distinctOutputApi : NGMetallAPI :=
  index_data distinctOutputRules [] [] [] [] [] []

/-- Invoice hitting `distinctOutputRules` with volume 6000. -/
def distinctOutputInvoice : Invoice :=
  { invoice_id := "INV007", customer_id := "Supplier001",
    delivery_date := "2023-10-01", facility_id := "F001",
    material_code := "M001", volume := 6000 }

/-- Three-branch rule set: a Material Recycling output, an Energy Recycling
output and a Losses output. -/
def wRuleM002 : MaterialTransformation :=
  { facility_id := "F001", input_material_code := "M001",
    output_material_code := "M002", percentage := 0.5,
    category := "Material Recycling" }

/-- The Energy Recycling branch of the three-branch rule set. -/
def wRuleM003 : MaterialTransformation :=
  { facility_id := "F001", input_material_code := "M001",
    output_material_code := "M003", percentage := 0.3,
    category := "Energy Recycling" }

/-- The Losses branch of the three-branch rule set. -/
def wRuleM004 : MaterialTransformation :=
  { facility_id := "F001", input_material_code := "M001",
    output_material_code := "M004", percentage := 0.2, category := "Losses" }

/-- Reference data with the three-branch rule set; M002 is distributed to
Norway, Sweden and Denmark but only Norway and Sweden have a configured
downstream distance. -/
def multiApi : NGMetallAPI :=
  index_data [wRuleM002, wRuleM003, wRuleM004]
    [{ facility_id := "F001", material_code := "M001", emission_factor := 19.5 }]
    [{ mode_of_transport := "Truck", emission_factor := 0.05 }]
    [{ customer_id := "Supplier001", facility_id := "F001",
       inbound_average_distance := 500, inbound_mode_of_transport := "Truck" }]
    [{ facility_id := "F001", destination_country := "Norway",
       average_distance := 500, mode_of_transport := "Truck" },
     { facility_id := "F001", destination_country := "Sweden",
       average_distance := 800, mode_of_transport := "Truck" }]
    [{ output_material_code := "M002", destination_country := "Norway", percentage := 0.5 },
     { output_material_code := "M002", destination_country := "Sweden", percentage := 0.3 },
     { output_material_code := "M002", destination_country := "Denmark", percentage := 0.2 }]
    [{ material_code := "M002", emissions := 3056 }]

/-- Invoice hitting the three-branch rule set with volume 1000. -/
def multiInvoice : Invoice :=
  { invoice_id := "INV005", customer_id := "Supplier001",
    delivery_date := "2023-10-02", facility_id := "F001",
    material_code := "M001", volume := 1000 }

/-- An invoice whose (facility, material) pair has no transformation rule in
the example reference data. -/
def noRuleInvoice : Invoice :=
  { invoice_id := "INV006", customer_id := "Supplier001",
    delivery_date := "2023-10-03", facility_id := "F001",
    material_code := "M999", volume := 50 }

/-! ## Helper lemmas -/

/-- When the total output volume is nonzero, the allocation dict's values
sum back to the allocated total. -/
theorem dictValuesSum_allocate_emissions (e : ℚ) (ov : List (String × ℚ))
    (h : dictValuesSum ov ≠ 0) :
    dictValuesSum (NGMetallAPI.allocate_emissions e ov) = e := by
  simp only [NGMetallAPI.allocate_emissions] at *
  simp only [dictValuesSum] at *
  rw [List.map_map]
  have h1 : (Prod.snd ∘ fun p : String × ℚ =>
      (p.1, if (ov.map Prod.snd).sum ≠ 0 then p.2 / (ov.map Prod.snd).sum * e else 0))
      = fun p : String × ℚ => p.2 * (((ov.map Prod.snd).sum)⁻¹ * e) := by
    funext p
    simp only [Function.comp_apply, if_pos h]
    ring
  rw [h1, List.sum_map_mul_right, ← mul_assoc, mul_inv_cancel₀ h, one_mul]

/-- Every row emitted for one branch carries the branch's allocated
processing and inbound emissions unchanged, and its total transport
emission is inbound plus outbound. -/
theorem mem_rowsForBranch_fields (api : NGMetallAPI) (inv : Invoice)
    (ov pe ie : ℚ) (mt : MaterialTransformation) (r : RecyclingReport)
    (h : r ∈ NGMetallAPI.rowsForBranch api inv ov pe ie mt) :
    r.processing_emissions = pe ∧ r.inbound_transport_emissions = ie ∧
      r.total_transport_emissions
        = r.inbound_transport_emissions + r.outbound_transport_emissions := by
  unfold NGMetallAPI.rowsForBranch at h
  split at h
  · rw [List.mem_filterMap] at h
    obtain ⟨od, hod, hsome⟩ := h
    cases hdd : NGMetallAPI.get_downstream_distance api inv.facility_id od.destination_country with
    | none => rw [hdd] at hsome; simp at hsome
    | some dd =>
        rw [hdd] at hsome
        simp only [Option.some.injEq] at hsome
        subst hsome
        refine ⟨rfl, rfl, rfl⟩
  · simp only [List.mem_singleton] at h
    subst h
    refine ⟨rfl, rfl, by simp⟩

/-- When the rules' output codes are pairwise distinct and fresh for the
accumulator, folding `dictInsert` appends one entry per rule. -/
theorem foldl_dictInsert_fresh (volume : ℚ) (ts : List MaterialTransformation) :
    ∀ acc : List (String × ℚ),
      (∀ mt ∈ ts, ∀ p ∈ acc, p.1 ≠ mt.output_material_code) →
      (ts.map (fun mt => mt.output_material_code)).Nodup →
      ts.foldl
          (fun ov mt => dictInsert ov mt.output_material_code (volume * mt.percentage)) acc
        = acc ++ ts.map (fun mt => (mt.output_material_code, volume * mt.percentage)) := by
  induction ts with
  | nil => intro acc _ _; simp
  | cons mt ts ih =>
      intro acc hfresh hnodup
      rw [List.foldl_cons]
      have hacc : (acc.any (fun p => p.1 = mt.output_material_code)) = false := by
        rw [List.any_eq_false]
        intro p hp
        simpa using hfresh mt (List.mem_cons_self mt ts) p hp
      have hins : dictInsert acc mt.output_material_code (volume * mt.percentage)
          = acc ++ [(mt.output_material_code, volume * mt.percentage)] := by
        unfold dictInsert
        rw [if_neg (by simp [hacc])]
      rw [List.map_cons, List.nodup_cons] at hnodup
      rw [hins, ih (acc ++ [(mt.output_material_code, volume * mt.percentage)]) ?_ hnodup.2]
      · simp
      · intro mt' hmt' p hp
        rcases List.mem_append.1 hp with hp | hp
        · exact hfresh mt' (List.mem_cons_of_mem _ hmt') p hp
        · rw [List.mem_singleton] at hp
          subst hp
          intro hEq
          apply hnodup.1
          rw [show (mt.output_material_code, volume * mt.percentage).1
              = mt.output_material_code from rfl] at hEq
          rw [hEq]
          exact List.mem_map_of_mem _ hmt'

/-! ## Claims -/

/-- C1: on the spec's example scenario (one Material Recycling rule F001,
M001 → M002 with yield 0.95, processing factor 19.5, upstream 500 km by
Truck at factor 0.05, full distribution of M002 to Norway at 500 km by
Truck, virgin benchmark 3056, invoice volume 6000),
`calculate_recycling_report` returns exactly one row with
output_volume = 5700, processing_emissions = 117000,
inbound_transport_emissions = 150000, destination_volume = 5700,
outbound_transport_emissions = 142500, total_transport_emissions = 292500
and benchmark_emissions = 17419200. -/
theorem C1_example_scenario :
    NGMetallAPI.calculate_recycling_report exampleApi [exampleInvoice]
      = [exampleExpectedRow] := by
  norm_num [NGMetallAPI.calculate_recycling_report, NGMetallAPI.processInvoice,
    NGMetallAPI.branchRows, NGMetallAPI.branchOutputVolume,
    NGMetallAPI.branchAllocatedProcessing, NGMetallAPI.branchAllocatedInbound,
    NGMetallAPI.invoiceOutputVolumes,
    NGMetallAPI.get_material_transformations, NGMetallAPI.calculate_output_volumes,
    NGMetallAPI.calculate_processing_emissions, NGMetallAPI.allocate_emissions,
    NGMetallAPI.calculate_inbound_transport_emissions, NGMetallAPI.get_output_distribution,
    NGMetallAPI.get_downstream_distance, NGMetallAPI.rowsForBranch,
    exampleApi, exampleInvoice, exampleRule, exampleExpectedRow,
    index_data, buildListIndex, buildScalarIndex,
    dictInsert, dictGet, dictValuesSum, List.find?, List.filter,
    List.filterMap_cons, List.filterMap_nil]

/-- C2 counterexample: the invoice `zeroYieldInvoice` has one transformation
rule (yield 0), yet the allocated processing emissions sum to 0 while the
invoice's total processing emissions are 6000 × 19.5 = 117000 ≠ 0, so
allocation additivity fails as universally stated. -/
theorem C2_counterexample :
    NGMetallAPI.get_material_transformations zeroYieldApi zeroYieldInvoice.facility_id
        zeroYieldInvoice.material_code ≠ [] ∧
    dictValuesSum
        (NGMetallAPI.allocate_emissions
          (NGMetallAPI.calculate_processing_emissions zeroYieldApi zeroYieldInvoice.facility_id
            zeroYieldInvoice.material_code zeroYieldInvoice.volume)
          (NGMetallAPI.invoiceOutputVolumes zeroYieldApi zeroYieldInvoice))
      ≠ NGMetallAPI.calculate_processing_emissions zeroYieldApi zeroYieldInvoice.facility_id
          zeroYieldInvoice.material_code zeroYieldInvoice.volume := by
  constructor <;>
  norm_num [NGMetallAPI.get_material_transformations, NGMetallAPI.invoiceOutputVolumes,
    NGMetallAPI.calculate_output_volumes, NGMetallAPI.calculate_processing_emissions,
    NGMetallAPI.allocate_emissions,
    zeroYieldApi, zeroYieldInvoice, zeroYieldRule,
    index_data, buildListIndex, buildScalarIndex,
    dictInsert, dictGet, dictValuesSum, List.filter]

/-- C2 (amended): for every invoice whose total output volume is nonzero,
the allocated processing emissions sum back to the invoice's total
processing emissions (invoice volume times the facility/material factor),
and the allocated inbound emissions sum back to the invoice's total inbound
transport emissions. -/
theorem C2_allocation_additivity (api : NGMetallAPI) (inv : Invoice)
    (h : dictValuesSum (NGMetallAPI.invoiceOutputVolumes api inv) ≠ 0) :
    dictValuesSum
        (NGMetallAPI.allocate_emissions
          (NGMetallAPI.calculate_processing_emissions api inv.facility_id inv.material_code
            inv.volume)
          (NGMetallAPI.invoiceOutputVolumes api inv))
      = inv.volume * ((api.emission_factor_index (inv.facility_id, inv.material_code)).getD 0) ∧
    dictValuesSum
        (NGMetallAPI.allocate_emissions
          (NGMetallAPI.calculate_inbound_transport_emissions api inv.customer_id inv.facility_id
            inv.volume)
          (NGMetallAPI.invoiceOutputVolumes api inv))
      = NGMetallAPI.calculate_inbound_transport_emissions api inv.customer_id inv.facility_id
          inv.volume := by
  refine ⟨?_, dictValuesSum_allocate_emissions _ _ h⟩
  rw [dictValuesSum_allocate_emissions _ _ h]
  rfl

/-- C2 witness: the amended additivity theorem applied to the example
scenario, whose total output volume 5700 is nonzero. -/
theorem C2_allocation_additivity_witness :
    dictValuesSum (NGMetallAPI.invoiceOutputVolumes exampleApi exampleInvoice) ≠ 0 ∧
    (dictValuesSum
        (NGMetallAPI.allocate_emissions
          (NGMetallAPI.calculate_processing_emissions exampleApi exampleInvoice.facility_id
            exampleInvoice.material_code exampleInvoice.volume)
          (NGMetallAPI.invoiceOutputVolumes exampleApi exampleInvoice))
      = exampleInvoice.volume *
          ((exampleApi.emission_factor_index
            (exampleInvoice.facility_id, exampleInvoice.material_code)).getD 0) ∧
    dictValuesSum
        (NGMetallAPI.allocate_emissions
          (NGMetallAPI.calculate_inbound_transport_emissions exampleApi exampleInvoice.customer_id
            exampleInvoice.facility_id exampleInvoice.volume)
          (NGMetallAPI.invoiceOutputVolumes exampleApi exampleInvoice))
      = NGMetallAPI.calculate_inbound_transport_emissions exampleApi exampleInvoice.customer_id
          exampleInvoice.facility_id exampleInvoice.volume) := by
  have h : dictValuesSum (NGMetallAPI.invoiceOutputVolumes exampleApi exampleInvoice) ≠ 0 := by
    norm_num [NGMetallAPI.invoiceOutputVolumes, NGMetallAPI.calculate_output_volumes,
      NGMetallAPI.get_material_transformations,
      exampleApi, exampleInvoice, exampleRule,
      index_data, buildListIndex, buildScalarIndex,
      dictInsert, dictValuesSum, List.filter]
  exact ⟨h, C2_allocation_additivity exampleApi exampleInvoice h⟩

/-- C3 counterexample: two rules mapping the same input to the SAME output
code with yields 0.3 and 0.7 sum to 1, but the output-volume dict keeps
only the overwriting entry 6000 × 0.7 = 4200, so the summed output volume
is not the invoice volume. -/
theorem C3_counterexample :
    ((NGMetallAPI.get_material_transformations dupOutputApi dupOutputInvoice.facility_id
        dupOutputInvoice.material_code).map (fun mt => mt.percentage)).sum = 1 ∧
    dictValuesSum (NGMetallAPI.invoiceOutputVolumes dupOutputApi dupOutputInvoice)
      ≠ dupOutputInvoice.volume := by
  constructor <;>
  norm_num [NGMetallAPI.get_material_transformations, NGMetallAPI.invoiceOutputVolumes,
    NGMetallAPI.calculate_output_volumes,
    dupOutputApi, dupOutputInvoice, dupOutputRules,
    index_data, buildListIndex, buildScalarIndex,
    dictInsert, dictValuesSum, List.filter]

/-- C3 (amended): for every invoice whose resolved transformation rules
have pairwise distinct output material codes and yield fractions summing
to 1, the output volumes sum to the invoice volume. -/
theorem C3_volume_conservation (api : NGMetallAPI) (inv : Invoice)
    (hnodup : ((NGMetallAPI.get_material_transformations api inv.facility_id
        inv.material_code).map (fun mt => mt.output_material_code)).Nodup)
    (hsum : ((NGMetallAPI.get_material_transformations api inv.facility_id
        inv.material_code).map (fun mt => mt.percentage)).sum = 1) :
    dictValuesSum (NGMetallAPI.invoiceOutputVolumes api inv) = inv.volume := by
  unfold NGMetallAPI.invoiceOutputVolumes NGMetallAPI.calculate_output_volumes
  rw [foldl_dictInsert_fresh inv.volume _ [] (by simp) hnodup, List.nil_append]
  unfold dictValuesSum
  rw [List.map_map]
  rw [show (Prod.snd ∘ fun mt : MaterialTransformation =>
      (mt.output_material_code, inv.volume * mt.percentage))
      = fun mt : MaterialTransformation => inv.volume * mt.percentage from rfl]
  rw [List.sum_map_mul_left, hsum, mul_one]

/-- C3 witness: the amended conservation theorem applied to two rules with
distinct outputs M002/M003 and yields 0.3/0.7 on a volume of 6000. -/
theorem C3_volume_conservation_witness :
    ((NGMetallAPI.get_material_transformations distinctOutputApi
        distinctOutputInvoice.facility_id distinctOutputInvoice.material_code).map
        (fun mt => mt.output_material_code)).Nodup ∧
    ((NGMetallAPI.get_material_transformations distinctOutputApi
        distinctOutputInvoice.facility_id distinctOutputInvoice.material_code).map
        (fun mt => mt.percentage)).sum = 1 ∧
    dictValuesSum (NGMetallAPI.invoiceOutputVolumes distinctOutputApi distinctOutputInvoice)
      = distinctOutputInvoice.volume := by
  have hnodup : ((NGMetallAPI.get_material_transformations distinctOutputApi
      distinctOutputInvoice.facility_id distinctOutputInvoice.material_code).map
      (fun mt => mt.output_material_code)).Nodup := by
    norm_num [NGMetallAPI.get_material_transformations,
      distinctOutputApi, distinctOutputInvoice, distinctOutputRules,
      index_data, buildListIndex, List.filter]
    decide
  have hsum : ((NGMetallAPI.get_material_transformations distinctOutputApi
      distinctOutputInvoice.facility_id distinctOutputInvoice.material_code).map
      (fun mt => mt.percentage)).sum = 1 := by
    norm_num [NGMetallAPI.get_material_transformations,
      distinctOutputApi, distinctOutputInvoice, distinctOutputRules,
      index_data, buildListIndex, List.filter]
  exact ⟨hnodup, hsum,
    C3_volume_conservation distinctOutputApi distinctOutputInvoice hnodup hsum⟩

/-- C8: when the total output volume is 0, `allocate_emissions` assigns 0
to every branch (the code guards the division with the dict's truthiness),
whatever the total emissions are. -/
theorem C8_zero_total_volume_allocates_zero (e : ℚ) (ov : List (String × ℚ))
    (h : dictValuesSum ov = 0) :
    NGMetallAPI.allocate_emissions e ov = ov.map (fun p => (p.1, 0)) := by
  simp only [NGMetallAPI.allocate_emissions]
  simp [h]

/-- C4: every row of every report satisfies
total_transport_emissions = inbound + outbound (outbound is 0 on
non-recycling rows, where total equals the allocated inbound). -/
theorem C4_total_transport_consistency (api : NGMetallAPI) (invoices : List Invoice)
    (r : RecyclingReport) (h : r ∈ NGMetallAPI.calculate_recycling_report api invoices) :
    r.total_transport_emissions
      = r.inbound_transport_emissions + r.outbound_transport_emissions := by
  unfold NGMetallAPI.calculate_recycling_report at h
  rw [List.mem_flatten] at h
  obtain ⟨rows, hrows, hr⟩ := h
  rw [List.mem_map] at hrows
  obtain ⟨inv, _, rfl⟩ := hrows
  simp only [NGMetallAPI.processInvoice] at hr
  split at hr
  · simp at hr
  · rw [List.mem_flatten] at hr
    obtain ⟨rows2, hrows2, hr2⟩ := hr
    rw [List.mem_map] at hrows2
    obtain ⟨mt, _, rfl⟩ := hrows2
    unfold NGMetallAPI.branchRows at hr2
    exact (mem_rowsForBranch_fields api inv _ _ _ mt r hr2).2.2

/-- C4 witness: the consistency theorem applied to the example scenario's
single row. -/
theorem C4_total_transport_consistency_witness :
    exampleExpectedRow ∈ NGMetallAPI.calculate_recycling_report exampleApi [exampleInvoice] ∧
    exampleExpectedRow.total_transport_emissions
      = exampleExpectedRow.inbound_transport_emissions
        + exampleExpectedRow.outbound_transport_emissions := by
  have h : exampleExpectedRow
      ∈ NGMetallAPI.calculate_recycling_report exampleApi [exampleInvoice] := by
    norm_num [NGMetallAPI.calculate_recycling_report, NGMetallAPI.processInvoice,
      NGMetallAPI.branchRows, NGMetallAPI.branchOutputVolume,
      NGMetallAPI.branchAllocatedProcessing, NGMetallAPI.branchAllocatedInbound,
      NGMetallAPI.invoiceOutputVolumes,
      NGMetallAPI.get_material_transformations, NGMetallAPI.calculate_output_volumes,
      NGMetallAPI.calculate_processing_emissions, NGMetallAPI.allocate_emissions,
      NGMetallAPI.calculate_inbound_transport_emissions, NGMetallAPI.get_output_distribution,
      NGMetallAPI.get_downstream_distance, NGMetallAPI.rowsForBranch,
      exampleApi, exampleInvoice, exampleRule, exampleExpectedRow,
      index_data, buildListIndex, buildScalarIndex,
      dictInsert, dictGet, dictValuesSum, List.find?, List.filter,
      List.filterMap_cons, List.filterMap_nil, List.mem_singleton]
  exact ⟨h, C4_total_transport_consistency exampleApi [exampleInvoice] exampleExpectedRow h⟩

/-- C5: a branch whose category is Energy Recycling or Losses emits exactly
one row, with destination "N/A", destination_volume equal to the branch's
output volume, zero outbound and benchmark emissions, and total transport
equal to the branch's allocated inbound emission. -/
theorem C5_nonrecycling_single_row (api : NGMetallAPI) (inv : Invoice)
    (mt : MaterialTransformation)
    (hcat : mt.category = "Energy Recycling" ∨ mt.category = "Losses") :
    NGMetallAPI.branchRows api inv mt
      = [{ invoice_id := inv.invoice_id
           customer_id := inv.customer_id
           delivery_date := inv.delivery_date
           facility_id := inv.facility_id
           input_material_code := inv.material_code
           output_material_code := mt.output_material_code
           category := mt.category
           volume_delivered := inv.volume
           output_volume := NGMetallAPI.branchOutputVolume api inv mt
           processing_emissions := NGMetallAPI.branchAllocatedProcessing api inv mt
           inbound_transport_emissions := NGMetallAPI.branchAllocatedInbound api inv mt
           outbound_transport_emissions := 0
           total_transport_emissions := NGMetallAPI.branchAllocatedInbound api inv mt
           production_benchmark_emissions := 0
           destination_country := "N/A"
           destination_volume := NGMetallAPI.branchOutputVolume api inv mt }] := by
  have hne : ¬ mt.category = "Material Recycling" := by
    rcases hcat with h | h <;> rw [h] <;> decide
  unfold NGMetallAPI.branchRows NGMetallAPI.rowsForBranch
  rw [if_neg hne]

/-- C5 witness: the single-row theorem applied to the Energy Recycling
branch of the three-branch scenario. -/
theorem C5_nonrecycling_single_row_witness :
    (wRuleM003.category = "Energy Recycling" ∨ wRuleM003.category = "Losses") ∧
    NGMetallAPI.branchRows multiApi multiInvoice wRuleM003
      = [{ invoice_id := multiInvoice.invoice_id
           customer_id := multiInvoice.customer_id
           delivery_date := multiInvoice.delivery_date
           facility_id := multiInvoice.facility_id
           input_material_code := multiInvoice.material_code
           output_material_code := wRuleM003.output_material_code
           category := wRuleM003.category
           volume_delivered := multiInvoice.volume
           output_volume := NGMetallAPI.branchOutputVolume multiApi multiInvoice wRuleM003
           processing_emissions :=
             NGMetallAPI.branchAllocatedProcessing multiApi multiInvoice wRuleM003
           inbound_transport_emissions :=
             NGMetallAPI.branchAllocatedInbound multiApi multiInvoice wRuleM003
           outbound_transport_emissions := 0
           total_transport_emissions :=
             NGMetallAPI.branchAllocatedInbound multiApi multiInvoice wRuleM003
           production_benchmark_emissions := 0
           destination_country := "N/A"
           destination_volume :=
             NGMetallAPI.branchOutputVolume multiApi multiInvoice wRuleM003 }] :=
  ⟨Or.inl rfl, C5_nonrecycling_single_row multiApi multiInvoice wRuleM003 (Or.inl rfl)⟩

/-- C6: evidence for the code bug — the engine performs no input
validation, so an invoice with the clearly invalid volume -100 is not
rejected: the code silently emits one ordinary row carrying negative
volumes and negative emissions. -/
theorem C6_negative_volume_not_rejected :
    NGMetallAPI.calculate_recycling_report exampleApi [negInvoice] = [negExpectedRow] := by
  norm_num [NGMetallAPI.calculate_recycling_report, NGMetallAPI.processInvoice,
    NGMetallAPI.branchRows, NGMetallAPI.branchOutputVolume,
    NGMetallAPI.branchAllocatedProcessing, NGMetallAPI.branchAllocatedInbound,
    NGMetallAPI.invoiceOutputVolumes,
    NGMetallAPI.get_material_transformations, NGMetallAPI.calculate_output_volumes,
    NGMetallAPI.calculate_processing_emissions, NGMetallAPI.allocate_emissions,
    NGMetallAPI.calculate_inbound_transport_emissions, NGMetallAPI.get_output_distribution,
    NGMetallAPI.get_downstream_distance, NGMetallAPI.rowsForBranch,
    exampleApi, exampleRule, negInvoice, negExpectedRow,
    index_data, buildListIndex, buildScalarIndex,
    dictInsert, dictGet, dictValuesSum, List.find?, List.filter,
    List.filterMap_cons, List.filterMap_nil]

/-- C7: an invoice whose (facility, material) pair has no transformation
rule contributes zero rows and the rest of the batch is unaffected. -/
theorem C7_no_rule_skip (api : NGMetallAPI) (xs ys : List Invoice) (inv : Invoice)
    (h : NGMetallAPI.get_material_transformations api inv.facility_id inv.material_code = []) :
    NGMetallAPI.calculate_recycling_report api (xs ++ inv :: ys)
      = NGMetallAPI.calculate_recycling_report api (xs ++ ys) := by
  have hinv : NGMetallAPI.processInvoice api inv = [] := by
    simp [NGMetallAPI.processInvoice, h]
  unfold NGMetallAPI.calculate_recycling_report
  rw [List.map_append, List.map_cons, List.map_append,
    List.flatten_append, List.flatten_cons, List.flatten_append, hinv, List.nil_append]

/-- C7 witness: the skip theorem applied to a batch holding a no-rule
invoice (material M999) in front of the example invoice. -/
theorem C7_no_rule_skip_witness :
    NGMetallAPI.get_material_transformations exampleApi noRuleInvoice.facility_id
        noRuleInvoice.material_code = [] ∧
    NGMetallAPI.calculate_recycling_report exampleApi ([] ++ noRuleInvoice :: [exampleInvoice])
      = NGMetallAPI.calculate_recycling_report exampleApi ([] ++ [exampleInvoice]) := by
  have h : NGMetallAPI.get_material_transformations exampleApi noRuleInvoice.facility_id
      noRuleInvoice.material_code = [] := by
    norm_num [NGMetallAPI.get_material_transformations, exampleApi, exampleRule,
      noRuleInvoice, index_data, buildListIndex, List.filter]
    decide
  exact ⟨h, C7_no_rule_skip exampleApi [] [exampleInvoice] noRuleInvoice h⟩

/-- C9: for a Material Recycling branch, the emitted rows' destination
countries are exactly the distribution entries that have a configured
downstream distance, in distribution order: a missing distance skips that
destination only. -/
theorem C9_missing_distance_skips_destination (api : NGMetallAPI) (inv : Invoice)
    (mt : MaterialTransformation) (hcat : mt.category = "Material Recycling") :
    (NGMetallAPI.branchRows api inv mt).map (fun r => r.destination_country)
      = ((NGMetallAPI.get_output_distribution api mt.output_material_code).filter
          (fun od => (NGMetallAPI.get_downstream_distance api inv.facility_id
            od.destination_country).isSome)).map
          (fun od => od.destination_country) := by
  unfold NGMetallAPI.branchRows NGMetallAPI.rowsForBranch
  rw [if_pos hcat]
  generalize NGMetallAPI.get_output_distribution api mt.output_material_code = l
  induction l with
  | nil => simp
  | cons od ods ih =>
      rw [List.filterMap_cons, List.filter_cons]
      cases hdd : NGMetallAPI.get_downstream_distance api inv.facility_id
          od.destination_country with
      | none => simpa [hdd] using ih
      | some dd => simpa [hdd] using ih

/-- C9 witness: in the three-branch scenario, M002 is configured for
Norway, Sweden and Denmark, but Denmark has no downstream distance; the
branch's rows cover exactly Norway and Sweden, in order. -/
theorem C9_missing_distance_skips_destination_witness :
    wRuleM002.category = "Material Recycling" ∧
    (NGMetallAPI.branchRows multiApi multiInvoice wRuleM002).map
        (fun r => r.destination_country)
      = ["Norway", "Sweden"] := by
  refine ⟨rfl,
    (C9_missing_distance_skips_destination multiApi multiInvoice wRuleM002 rfl).trans ?_⟩
  norm_num [NGMetallAPI.get_output_distribution, NGMetallAPI.get_downstream_distance,
    multiApi, multiInvoice, wRuleM002, index_data, buildListIndex, buildScalarIndex,
    List.filter]
  decide

/-- C10: every destination row of a Material Recycling branch that emits
more than one row carries the branch's allocated processing and inbound
emissions unchanged, so summing each of those columns over the branch's
rows yields the row count times the per-branch allocation. -/
theorem C10_branch_allocations_not_subdivided (api : NGMetallAPI) (inv : Invoice)
    (mt : MaterialTransformation) (hcat : mt.category = "Material Recycling")
    (hmulti : 1 < (NGMetallAPI.branchRows api inv mt).length) :
    (∀ r ∈ NGMetallAPI.branchRows api inv mt,
        r.processing_emissions = NGMetallAPI.branchAllocatedProcessing api inv mt ∧
        r.inbound_transport_emissions = NGMetallAPI.branchAllocatedInbound api inv mt) ∧
    ((NGMetallAPI.branchRows api inv mt).map (fun r => r.processing_emissions)).sum
      = ((NGMetallAPI.branchRows api inv mt).length : ℚ)
          * NGMetallAPI.branchAllocatedProcessing api inv mt ∧
    ((NGMetallAPI.branchRows api inv mt).map (fun r => r.inbound_transport_emissions)).sum
      = ((NGMetallAPI.branchRows api inv mt).length : ℚ)
          * NGMetallAPI.branchAllocatedInbound api inv mt := by
  have hfields : ∀ r ∈ NGMetallAPI.branchRows api inv mt,
      r.processing_emissions = NGMetallAPI.branchAllocatedProcessing api inv mt ∧
      r.inbound_transport_emissions = NGMetallAPI.branchAllocatedInbound api inv mt := by
    intro r hr
    unfold NGMetallAPI.branchRows at hr
    exact ⟨(mem_rowsForBranch_fields api inv _ _ _ mt r hr).1,
      (mem_rowsForBranch_fields api inv _ _ _ mt r hr).2.1⟩
  refine ⟨hfields, ?_, ?_⟩
  · rw [List.sum_eq_card_nsmul
        ((NGMetallAPI.branchRows api inv mt).map (fun r => r.processing_emissions))
        (NGMetallAPI.branchAllocatedProcessing api inv mt) ?_]
    · rw [List.length_map, nsmul_eq_mul]
    · intro x hx
      rw [List.mem_map] at hx
      obtain ⟨r, hr, rfl⟩ := hx
      exact (hfields r hr).1
  · rw [List.sum_eq_card_nsmul
        ((NGMetallAPI.branchRows api inv mt).map (fun r => r.inbound_transport_emissions))
        (NGMetallAPI.branchAllocatedInbound api inv mt) ?_]
    · rw [List.length_map, nsmul_eq_mul]
    · intro x hx
      rw [List.mem_map] at hx
      obtain ⟨r, hr, rfl⟩ := hx
      exact (hfields r hr).2

/-- C10 witness: the M002 branch of the three-branch scenario emits two
rows (Norway and Sweden), and the processing column sums to 2 times the
branch's allocated processing emission. -/
theorem C10_branch_allocations_not_subdivided_witness :
    wRuleM002.category = "Material Recycling" ∧
    1 < (NGMetallAPI.branchRows multiApi multiInvoice wRuleM002).length ∧
    ((NGMetallAPI.branchRows multiApi multiInvoice wRuleM002).map
        (fun r => r.processing_emissions)).sum
      = ((NGMetallAPI.branchRows multiApi multiInvoice wRuleM002).length : ℚ)
          * NGMetallAPI.branchAllocatedProcessing multiApi multiInvoice wRuleM002 := by
  have hmulti : 1 < (NGMetallAPI.branchRows multiApi multiInvoice wRuleM002).length := by
    norm_num [NGMetallAPI.branchRows, NGMetallAPI.branchOutputVolume,
      NGMetallAPI.branchAllocatedProcessing, NGMetallAPI.branchAllocatedInbound,
      NGMetallAPI.invoiceOutputVolumes,
      NGMetallAPI.get_material_transformations, NGMetallAPI.calculate_output_volumes,
      NGMetallAPI.calculate_processing_emissions, NGMetallAPI.allocate_emissions,
      NGMetallAPI.calculate_inbound_transport_emissions, NGMetallAPI.get_output_distribution,
      NGMetallAPI.get_downstream_distance, NGMetallAPI.rowsForBranch,
      multiApi, multiInvoice, wRuleM002, wRuleM003, wRuleM004,
      index_data, buildListIndex, buildScalarIndex,
      dictInsert, dictGet, dictValuesSum, List.find?, List.filter,
      List.filterMap_cons, List.filterMap_nil]
    decide
  exact ⟨rfl, hmulti,
    (C10_branch_allocations_not_subdivided multiApi multiInvoice wRuleM002 rfl hmulti).2.1⟩

/-- C8 witness: a two-branch output-volume dict whose values sum to 0 gets
all-zero allocations. -/
theorem C8_zero_total_volume_witness :
    dictValuesSum [("M002", (2 : ℚ)), ("M003", -2)] = 0 ∧
    NGMetallAPI.allocate_emissions 5 [("M002", (2 : ℚ)), ("M003", -2)]
      = [("M002", 0), ("M003", 0)] := by
  have h : dictValuesSum [("M002", (2 : ℚ)), ("M003", -2)] = 0 := by
    norm_num [dictValuesSum]
  refine ⟨h, ?_⟩
  rw [C8_zero_total_volume_allocates_zero 5 _ h]
  rfl
